import Mathlib

/-!
Verification of the carwash inventory backend's ledger/workflow core.

The definitions below are a shallow embedding of the HTTP handlers of the
repository that touch product stock, the inventory ledger and the
requisition/purchase workflow:

* `POST /api/inventory-logs` (inventory-logs service) — `postInventoryLog`
* `PATCH /api/purchases/:id/receive` — `receivePurchase`
* `POST /api/requisitions` — `createRequisition`
* `PATCH /api/requisitions/:id` — `decideRequisition`
* `POST /api/purchases/from-requisition` — `createPurchaseFromRequisition`
* `PUT /api/products/:product_id` — `putProduct`
* `POST /api/service-products/apply` (services service) — `applyService`

The external relational store is modelled as an explicit `Db` state; each
handler is a pure function from a `Db` and its request parameters to an
`ApiResult` and the successor `Db`.  Every database statement the handler
issues is modelled in program order, so statements issued before a failure
have taken effect in the returned state, exactly as in the source, where
the store calls are independent network requests with no transaction.
-/

namespace Carwash

/-- A row of the `products` table.  Only the columns the ledger/workflow
handlers read or write are modelled (`stock`, `cost`, `reorder_level`);
purely descriptive catalog columns (name, description, category,
supplier, price, …) play no role in any handler below.  `cost` is
nullable in the store, hence `Option`. -/
structure Product where
  stock : Int
  cost : Option Int
  reorder_level : Int
deriving Repr, DecidableEq

/-- A row of the `inventory_logs` table.  `previous_stock`, `new_stock`,
`unit_cost` and `total_cost_impact` are the `metadata` JSON snapshot the
handlers write; `unit_cost_col`/`total_cost_col` are the flat `unit_cost`
and `total_cost` columns, which only the manual-adjustment handler fills
(the purchase-receipt handler inserts the snapshot alone). -/
structure InventoryLog where
  product_id : Nat
  change : Int
  reason : String
  ref_table : Option String
  ref_id : Option Nat
  created_by : Option Nat
  previous_stock : Int
  new_stock : Int
  unit_cost : Int
  total_cost_impact : Int
  unit_cost_col : Option Int
  total_cost_col : Option Int
deriving Repr, DecidableEq

/-- A row of the `audit_logs` table (payload JSON omitted; no claim
mentions its contents). -/
structure AuditLog where
  user_id : Option Nat
  action : String
  table_name : String
  row_id : Nat
deriving Repr, DecidableEq

/-- A row of the `purchase_requisitions` table. -/
structure Requisition where
  id : Nat
  requested_by : Nat
  reason : String
  status : String
deriving Repr, DecidableEq

/-- A row of the `purchase_requisition_items` table. -/
structure RequisitionItem where
  requisition_id : Nat
  product_id : Nat
  quantity : Int
deriving Repr, DecidableEq

/-- A row of the `purchases` table. -/
structure Purchase where
  id : Nat
  supplier_id : Option Nat
  notes : Option String
  created_by : Nat
  status : String
deriving Repr, DecidableEq

/-- A row of the `purchase_items` table. -/
structure PurchaseItem where
  purchase_id : Nat
  product_id : Nat
  quantity : Int
  cost : Int
deriving Repr, DecidableEq

/-- A row of the `service_products` link table used by the services
service's auto-deduction endpoint. -/
structure ServiceProduct where
  service_id : Nat
  variant_id : Nat
  product_id : Nat
  quantity : Int
deriving Repr, DecidableEq

/-- The state of the external store: the tables the embedded handlers
touch.  Keyed tables are total functions from ids to optional rows;
append-only / multi-row tables are lists in insertion order.  `reqSeq`
and `purchaseSeq` model the store's id generation for inserts that
return the fresh row. -/
structure Db where
  products : Nat → Option Product
  inventory_logs : List InventoryLog
  audit_logs : List AuditLog
  requisitions : Nat → Option Requisition
  requisition_items : List RequisitionItem
  purchases : Nat → Option Purchase
  purchase_items : List PurchaseItem
  service_products : List ServiceProduct
  reqSeq : Nat
  purchaseSeq : Nat

/-- The empty store. -/
def Db.empty : Db where
  products := fun _ => none
  inventory_logs := []
  audit_logs := []
  requisitions := fun _ => none
  requisition_items := []
  purchases := fun _ => none
  purchase_items := []
  service_products := []
  reqSeq := 0
  purchaseSeq := 0

/-- Replace (or create) the `products` row with key `pid`. -/
def setProduct (db : Db) (pid : Nat) (p : Product) : Db :=
  { db with products := fun i => if i = pid then some p else db.products i }

/-- Replace (or create) the `purchase_requisitions` row with key `id`. -/
def setRequisition (db : Db) (id : Nat) (r : Requisition) : Db :=
  { db with requisitions := fun i => if i = id then some r else db.requisitions i }

/-- Replace (or create) the `purchases` row with key `id`. -/
def setPurchase (db : Db) (id : Nat) (p : Purchase) : Db :=
  { db with purchases := fun i => if i = id then some p else db.purchases i }

/-- Error responses the embedded handlers produce.  Each constructor is
one concrete non-2xx response of the source:
`notFound` = HTTP 404; `invalidAction` = 400 "Invalid action. Use
'approve' or 'reject'."; `invalidState` = 400 wrong-status messages;
`emptyItems` = 400 "No items provided"; `insufficientStock i` = 400
"Not enough stock for product i"; `badRequest` = other 400s;
`storeError` = HTTP 500 from a thrown store/runtime error. -/
inductive ApiError where
  | notFound (msg : String)
  | invalidAction
  | invalidState (msg : String)
  | emptyItems
  | insufficientStock (product_id : Nat)
  | badRequest (msg : String)
  | storeError (msg : String)
deriving Repr, DecidableEq

/-- A handler's HTTP outcome: 2xx success or one error response. -/
inductive ApiResult where
  | ok
  | error (e : ApiError)
deriving Repr, DecidableEq

/-- Modelled from the spec: the Postgres function
`update_product_stock(p_product_id, p_change)` invoked by the
manual-adjustment handler lives in the hosted database, not in the
repository source.  Per the spec's Stock Mutator step "Writes
`new_stock` back", it adds the signed change to the product's stock
row (the handler ignores the call's result either way). -/
def updateProductStock (db : Db) (pid : Nat) (change : Int) : Db :=
  match db.products pid with
  | none => db
  | some p => setProduct db pid { p with stock := p.stock + change }

/-- `POST /api/inventory-logs` (manual stock adjustment;
src/inventory-logs/check-models.js lines 127–201).  Reads the product's
`stock` and `cost` (a failing `.single()` throws → 500), computes the
snapshot, inserts the inventory log, fires the `update_product_stock`
RPC without checking its result, inserts an audit log, and responds
with success.  There is no check of `newStock` against zero anywhere in
the handler. -/
def postInventoryLog (db : Db) (product_id : Nat) (change : Int) (reason : String)
    (ref_table : Option String) (ref_id : Option Nat) (created_by : Option Nat) :
    ApiResult × Db :=
  match db.products product_id with
  | none => (.error (.storeError "single row expected for products"), db)
  | some product =>
    let previousStock := product.stock
    let newStock := previousStock + change
    let unitCost := product.cost.getD 0
    let totalCostImpact := change * unitCost
    let log : InventoryLog :=
      { product_id := product_id, change := change, reason := reason
        ref_table := ref_table, ref_id := ref_id, created_by := created_by
        previous_stock := previousStock, new_stock := newStock
        unit_cost := unitCost, total_cost_impact := totalCostImpact
        unit_cost_col := some unitCost, total_cost_col := some totalCostImpact }
    let db1 : Db := { db with inventory_logs := db.inventory_logs ++ [log] }
    let db2 : Db := updateProductStock db1 product_id change
    let db3 : Db := { db2 with audit_logs := db2.audit_logs ++
      [{ user_id := created_by, action := "INVENTORY_UPDATE"
         table_name := "products", row_id := product_id }] }
    (.ok, db3)

/-- One element of the `items` array of the receive-purchase request
body: `{product_id, quantity, cost}` with `cost` possibly absent. -/
structure ReceiveItem where
  product_id : Nat
  quantity : Int
  cost : Option Int
deriving Repr, DecidableEq

/-- The per-item loop of `PATCH /api/purchases/:id/receive`
(src/unnamed/part_001 lines 847–887).  For each item: read the
product's stock and cost (a failing read throws → 500, abandoning the
remaining items but keeping all writes already made), insert one
inventory log with the snapshot (`cost ?? product.cost ?? 0`; the
insert's result is not checked in the source), then write the new
stock. -/
def receiveItems (purchaseId : Nat) (received_by : Option Nat) :
    List ReceiveItem → Db → ApiResult × Db
  | [], db => (.ok, db)
  | item :: rest, db =>
    match db.products item.product_id with
    | none => (.error (.storeError "single row expected for products"), db)
    | some product =>
      let previousStock := product.stock
      let newStock := previousStock + item.quantity
      let unitCost := item.cost.getD (product.cost.getD 0)
      let totalCostImpact := item.quantity * unitCost
      let log : InventoryLog :=
        { product_id := item.product_id, change := item.quantity
          reason := "PURCHASE_RECEIVED", ref_table := some "purchases"
          ref_id := some purchaseId, created_by := received_by
          previous_stock := previousStock, new_stock := newStock
          unit_cost := unitCost, total_cost_impact := totalCostImpact
          unit_cost_col := none, total_cost_col := none }
      let db1 : Db := { db with inventory_logs := db.inventory_logs ++ [log] }
      let db2 : Db := setProduct db1 item.product_id { product with stock := newStock }
      receiveItems purchaseId received_by rest db2

/-- `PATCH /api/purchases/:id/receive` (src/unnamed/part_001 lines
827–894).  Rejects an empty/missing items list with 400 "No items
provided" before any write; otherwise first updates the purchase row's
status to "received" (a failing `.single()` throws → 500), then runs
the per-item loop. -/
def receivePurchase (db : Db) (purchaseId : Nat) (items : List ReceiveItem)
    (received_by : Option Nat) : ApiResult × Db :=
  if items.isEmpty then (.error .emptyItems, db)
  else
    match db.purchases purchaseId with
    | none => (.error (.storeError "single row expected for purchases"), db)
    | some purchase =>
      let db1 := setPurchase db purchaseId { purchase with status := "received" }
      receiveItems purchaseId received_by items db1

/-- One element of the `items` array of the create-requisition request
body: `{product_id, quantity}`. -/
structure ReqItemInput where
  product_id : Nat
  quantity : Int
deriving Repr, DecidableEq

/-- `POST /api/requisitions` (src/unnamed/part_001 lines 638–668).
Inserts the requisition row (the store defaults its status to
"pending"), then inserts all item rows in one multi-row statement.
The handler performs no validation of the items at all.  The item
insert is a single store statement, hence all-or-nothing; the store
rejects it (foreign key on `product_id`) exactly when some item's
product does not exist, in which case the handler throws → 500 with
the requisition row already inserted and not rolled back. -/
def createRequisition (db : Db) (requested_by : Nat) (reason : String)
    (items : List ReqItemInput) : ApiResult × Db :=
  let reqId := db.reqSeq
  let requisition : Requisition :=
    { id := reqId, requested_by := requested_by, reason := reason, status := "pending" }
  let db1 : Db := { (setRequisition db reqId requisition) with reqSeq := db.reqSeq + 1 }
  if items.all (fun i => (db1.products i.product_id).isSome) then
    let rows := items.map fun i =>
      RequisitionItem.mk reqId i.product_id i.quantity
    (.ok, { db1 with requisition_items := db1.requisition_items ++ rows })
  else
    (.error (.storeError "foreign key violation on purchase_requisition_items"), db1)

/-- `PATCH /api/requisitions/:id` (src/unnamed/part_001 lines 697–734).
Checks the action string first (400 "Invalid action…"), then fetches
the requisition (404 if absent), rejects a non-pending status with 400
"Requisition already processed.", and otherwise updates the status to
"approved"/"rejected". -/
def decideRequisition (db : Db) (id : Nat) (action : String) : ApiResult × Db :=
  if ¬(action = "approve" ∨ action = "reject") then
    (.error .invalidAction, db)
  else
    match db.requisitions id with
    | none => (.error (.notFound "Requisition not found"), db)
    | some requisition =>
      if requisition.status ≠ "pending" then
        (.error (.invalidState "Requisition already processed."), db)
      else
        let updated := { requisition with
          status := if action = "approve" then "approved" else "rejected" }
        (.ok, setRequisition db id updated)

/-- One element of the `items` array of the purchase-creation request
bodies: `{product_id, quantity, cost}` with `cost` possibly absent. -/
structure PurchaseItemInput where
  product_id : Nat
  quantity : Int
  cost : Option Int
deriving Repr, DecidableEq

/-- Set the status of a `purchase_requisitions` row, result ignored, as
in the source's unchecked `.update({status:…}).eq("id", id)` call. -/
def setRequisitionStatus (db : Db) (id : Nat) (status : String) : Db :=
  match db.requisitions id with
  | none => db
  | some r => setRequisition db id { r with status := status }

/-- `POST /api/purchases/from-requisition` (src/unnamed/part_001 lines
738–783).  404 if the requisition is absent; 400 "Requisition not
approved yet" if its status is not "approved"; otherwise inserts the
purchase (status "pending", notes defaulted), inserts the supplied
items (`cost: i.cost || 0`) in one statement — note: the items come
verbatim from the request body and are never compared with the
requisition's own items — and finally marks the requisition
"fulfilled" with an unchecked update. -/
def createPurchaseFromRequisition (db : Db) (requisition_id : Nat)
    (supplier_id : Option Nat) (items : List PurchaseItemInput)
    (notes : Option String) (created_by : Nat) : ApiResult × Db :=
  match db.requisitions requisition_id with
  | none => (.error (.notFound "Requisition not found"), db)
  | some requisition =>
    if requisition.status ≠ "approved" then
      (.error (.invalidState "Requisition not approved yet"), db)
    else
      let pid := db.purchaseSeq
      let purchase : Purchase :=
        { id := pid, supplier_id := supplier_id
          notes := some (notes.getD ("PO from requisition #" ++ toString requisition_id))
          created_by := created_by, status := "pending" }
      let db1 : Db := { (setPurchase db pid purchase) with purchaseSeq := db.purchaseSeq + 1 }
      if items.all (fun i => (db1.products i.product_id).isSome) then
        let rows := items.map fun i =>
          PurchaseItem.mk pid i.product_id i.quantity (i.cost.getD 0)
        let db2 : Db := { db1 with purchase_items := db1.purchase_items ++ rows }
        (.ok, setRequisitionStatus db2 requisition_id "fulfilled")
      else
        (.error (.storeError "foreign key violation on purchase_items"), db1)

/-- `PUT /api/products/:product_id` (src/unnamed/part_001 lines
465–495).  Overwrites the product's columns — including `stock` and
`cost` — directly from the request body; `.single()` on the update
fails (400) when no row matches.  The handler writes no inventory log
and no audit log. -/
def putProduct (db : Db) (product_id : Nat) (stock : Int) (cost : Option Int)
    (reorder_level : Int) : ApiResult × Db :=
  match db.products product_id with
  | none => (.error (.badRequest "single row expected for products"), db)
  | some _ =>
    (.ok, setProduct db product_id
      { stock := stock, cost := cost, reorder_level := reorder_level })

/-- One stock write (`update products set stock = new_stock`) issued to
the store by the service auto-deduction loop.  The source filters the
update on the product key of the linked row. -/
structure StockWrite where
  product_id : Nat
  new_stock : Int
deriving Repr, DecidableEq

/-- Write a bare stock value to a product row (no-op if the row was
deleted meanwhile, which cannot happen inside one handler run). -/
def setStock (db : Db) (pid : Nat) (v : Int) : Db :=
  match db.products pid with
  | none => db
  | some p => setProduct db pid { p with stock := v }

/-- Apply a sequence of stock writes in order. -/
def applyWrites (db : Db) : List StockWrite → Db
  | [] => db
  | w :: ws => applyWrites (setStock db w.product_id w.new_stock) ws

/-- The rows returned by the auto-deduction endpoint's initial select:
the `service_products` rows for the service/variant, each joined with a
snapshot of the linked product's current stock (`null` if the product
row is missing, in which case the loop's `sp.products.stock` access
throws). -/
def linkedRows (db : Db) (service_id variant_id : Nat) :
    List (ServiceProduct × Option Int) :=
  (db.service_products.filter fun sp =>
      sp.service_id = service_id ∧ sp.variant_id = variant_id).map
    fun sp => (sp, (db.products sp.product_id).map Product.stock)

/-- The per-row loop of `POST /api/service-products/apply`
(src/services-service/index.js lines 280–288).  `newStock` is computed
from the stock snapshot taken by the initial select; if it is negative
the handler returns 400 "Not enough stock for product …" immediately,
keeping the writes already made and deducting nothing further.
Otherwise it writes the new stock and continues.  The third component
of the result is the list of stock writes the loop issued to the
store, in order. -/
def applyLoop : List (ServiceProduct × Option Int) → Db → ApiResult × Db × List StockWrite
  | [], db => (.ok, db, [])
  | (_, none) :: _, db =>
    (.error (.storeError "TypeError reading stock of null"), db, [])
  | (sp, some snapshotStock) :: rest, db =>
    let newStock := snapshotStock - sp.quantity
    if newStock < 0 then
      (.error (.insufficientStock sp.product_id), db, [])
    else
      let db1 := setStock db sp.product_id newStock
      let out := applyLoop rest db1
      (out.1, out.2.1, StockWrite.mk sp.product_id newStock :: out.2.2)

/-- `POST /api/service-products/apply` (src/services-service/index.js
lines 265–294).  Selects the linked rows with their stock snapshots,
rejects an empty link list with 400, and otherwise runs the deduction
loop.  The handler never inserts an inventory log or audit log. -/
def applyService (db : Db) (service_id variant_id : Nat) :
    ApiResult × Db × List StockWrite :=
  let rows := linkedRows db service_id variant_id
  if rows.isEmpty then
    (.error (.badRequest "No products linked for this service/variant."), db, [])
  else applyLoop rows db

/-- The invariant the spec imposes on every ledger entry's recorded
snapshot. -/
def ledgerInvariant (e : InventoryLog) : Prop :=
  e.new_stock = e.previous_stock + e.change ∧
  e.total_cost_impact = e.change * e.unit_cost

instance (e : InventoryLog) : Decidable (ledgerInvariant e) := by
  unfold ledgerInvariant; infer_instance

/-- The unit cost a receive-purchase item falls back to when the request
supplies none: the product's `cost` column, itself defaulted to 0. -/
def costOf (db : Db) (pid : Nat) : Int :=
  match db.products pid with
  | none => 0
  | some p => p.cost.getD 0

/-- Total quantity the receive-purchase items list adds to one product. -/
def stockSum (items : List ReceiveItem) (pid : Nat) : Int :=
  (items.filter fun it => it.product_id == pid).foldr (fun it a => it.quantity + a) 0

/-- The ledger row the receive-purchase loop inserts for `item` when the
product row read for it is `p` (names the record literal of
`receiveItems` for use in proofs). -/
def receiptLog (purchaseId : Nat) (rb : Option Nat) (item : ReceiveItem) (p : Product) :
    InventoryLog :=
  { product_id := item.product_id, change := item.quantity
    reason := "PURCHASE_RECEIVED", ref_table := some "purchases"
    ref_id := some purchaseId, created_by := rb
    previous_stock := p.stock, new_stock := p.stock + item.quantity
    unit_cost := item.cost.getD (p.cost.getD 0)
    total_cost_impact := item.quantity * (item.cost.getD (p.cost.getD 0))
    unit_cost_col := none, total_cost_col := none }

/-- The store state after the receive-purchase loop has processed one
item whose product row read `p`: the ledger row appended and the new
stock written (names the intermediate state of `receiveItems` for use
in proofs). -/
def receiveStep (purchaseId : Nat) (rb : Option Nat) (item : ReceiveItem) (p : Product)
    (db : Db) : Db :=
  setProduct { db with inventory_logs := db.inventory_logs ++ [receiptLog purchaseId rb item p] }
    item.product_id { p with stock := p.stock + item.quantity }

/-- A store with a single product (id 1): stock 10, cost 3, reorder
level 5 — the spec's concrete manual-adjustment scenario. -/
def dbAdjust : Db :=
  { Db.empty with products := fun i => if i = 1 then some ⟨10, some 3, 5⟩ else none }

/-- A store with product 1 (stock 10, cost 2) and two pending purchases
(ids 7 and 8). -/
def dbReceive : Db :=
  { Db.empty with
    products := fun i => if i = 1 then some ⟨10, some 2, 5⟩ else none
    purchases := fun i => if i = 7 ∨ i = 8 then some ⟨i, some 1, none, 1, "pending"⟩ else none }

/-- The store after purchase 7 has been received once with 5 units of
product 1. -/
def dbReceive1 : Db := (receivePurchase dbReceive 7 [⟨1, 5, none⟩] (some 1)).2

/-- A store with product 1 (stock 5) and three requisitions: 3 pending,
4 approved, 5 fulfilled. -/
def dbReq : Db :=
  { Db.empty with
    products := fun i => if i = 1 then some ⟨5, some 2, 3⟩ else none
    requisitions := fun i =>
      if i = 3 then some ⟨3, 1, "restock", "pending"⟩
      else if i = 4 then some ⟨4, 1, "restock", "approved"⟩
      else if i = 5 then some ⟨5, 1, "restock", "fulfilled"⟩
      else none }

/-- A store with products 1 (stock 5) and 2 (stock 1); service 1 /
variant 1 links product 1 (qty 2) then product 2 (qty 4, more than its
stock); service 2 / variant 1 links product 1 (qty 2) only. -/
def dbService : Db :=
  { Db.empty with
    products := fun i =>
      if i = 1 then some ⟨5, some 2, 3⟩ else if i = 2 then some ⟨1, none, 0⟩ else none
    service_products := [⟨1, 1, 1, 2⟩, ⟨1, 1, 2, 4⟩, ⟨2, 1, 1, 2⟩] }

theorem setProduct_products (db : Db) (pid : Nat) (p : Product) (j : Nat) :
    (setProduct db pid p).products j = if j = pid then some p else db.products j := rfl

@[simp] theorem setProduct_inventory_logs (db : Db) (pid : Nat) (p : Product) :
    (setProduct db pid p).inventory_logs = db.inventory_logs := rfl

@[simp] theorem setProduct_purchases (db : Db) (pid : Nat) (p : Product) :
    (setProduct db pid p).purchases = db.purchases := rfl

@[simp] theorem setStock_inventory_logs (db : Db) (pid : Nat) (v : Int) :
    (setStock db pid v).inventory_logs = db.inventory_logs := by
  unfold setStock; cases db.products pid <;> rfl

@[simp] theorem updateProductStock_inventory_logs (db : Db) (pid : Nat) (c : Int) :
    (updateProductStock db pid c).inventory_logs = db.inventory_logs := by
  unfold updateProductStock; cases db.products pid <;> rfl

/-- C1.  Claimed: a manual adjustment with `previous_stock + change < 0`
fails with `InsufficientStock` before the stock row is written and the
stock is unchanged; in particular with stock 10, `applyDelta(-12)`
fails and stock remains 10.  What the handler actually does at exactly
that input: it responds with success, inserts a ledger row whose
snapshot records `new_stock = -2`, and applies the delta, leaving the
product's stock at -2.  The handler has no check of the computed new
stock and ignores the stock-update RPC's result, so no input can make
it fail with `InsufficientStock`. -/
theorem postInventoryLog_neg12_succeeds_and_stock_goes_negative :
    (postInventoryLog dbAdjust 1 (-12) "MANUAL" none none none).1 = .ok ∧
    ((postInventoryLog dbAdjust 1 (-12) "MANUAL" none none none).2.products 1).map
      Product.stock = some (-2) ∧
    (postInventoryLog dbAdjust 1 (-12) "MANUAL" none none none).2.inventory_logs.map
      InventoryLog.new_stock = [-2] := by
  decide

/-- C2.  Claimed: `receivePurchase` is idempotent with respect to stock
and never leaves a partially applied purchase marked "received".  The
code at concrete inputs: (a) receiving purchase 7 (5 units of product
1, stock 10) twice drives the stock to 20, i.e. the second call applies
the quantities again; (b) receiving purchase 8 with two items of which
the second references a missing product (99) returns a 500, yet leaves
the purchase status "received", item 1 applied (stock 15, one ledger
row) and item 2 unapplied. -/
theorem receivePurchase_double_applies_and_failed_item_leaves_received :
    ((receivePurchase dbReceive 7 [⟨1, 5, none⟩] (some 1)).1 = .ok ∧
      (dbReceive1.products 1).map Product.stock = some 15 ∧
      (receivePurchase dbReceive1 7 [⟨1, 5, none⟩] (some 1)).1 = .ok ∧
      ((receivePurchase dbReceive1 7 [⟨1, 5, none⟩] (some 1)).2.products 1).map
        Product.stock = some 20) ∧
    ((receivePurchase dbReceive 8 [⟨1, 5, none⟩, ⟨99, 5, none⟩] (some 1)).1
        = .error (.storeError "single row expected for products") ∧
      ((receivePurchase dbReceive 8 [⟨1, 5, none⟩, ⟨99, 5, none⟩] (some 1)).2.purchases 8).map
        Purchase.status = some "received" ∧
      ((receivePurchase dbReceive 8 [⟨1, 5, none⟩, ⟨99, 5, none⟩] (some 1)).2.products 1).map
        Product.stock = some 15 ∧
      (receivePurchase dbReceive 8 [⟨1, 5, none⟩, ⟨99, 5, none⟩] (some 1)).2.inventory_logs.length
        = 1) := by
  decide

/-- C8.  Claimed: `createRequisition` requires a non-empty items list
with every quantity > 0 and never leaves an orphaned requisition when
the item insert fails.  The code at concrete inputs: a zero-quantity
item is accepted, an empty items list is accepted (creating a
requisition that owns no items), and when the item insert fails (item
referencing missing product 99) the handler returns a 500 with the
fresh requisition row (status "pending") left behind and no items. -/
theorem createRequisition_accepts_bad_items_and_orphans_on_failure :
    (createRequisition dbReq 1 "restock" [⟨1, 0⟩]).1 = .ok ∧
    ((createRequisition dbReq 1 "restock" []).1 = .ok ∧
      ((createRequisition dbReq 1 "restock" []).2.requisitions 0).map Requisition.status
        = some "pending" ∧
      (createRequisition dbReq 1 "restock" []).2.requisition_items = []) ∧
    ((createRequisition dbReq 1 "restock" [⟨99, 4⟩]).1
        = .error (.storeError "foreign key violation on purchase_requisition_items") ∧
      ((createRequisition dbReq 1 "restock" [⟨99, 4⟩]).2.requisitions 0).map
        Requisition.status = some "pending" ∧
      (createRequisition dbReq 1 "restock" [⟨99, 4⟩]).2.requisition_items = []) := by
  decide

/-- C9.  Claimed: with stock 10, two concurrent `applyDelta(-6)` calls
result in exactly one success and one `InsufficientStock` failure, and
stock never goes negative.  The handler has no stock check at all, so
even the fully serialized schedule of the two calls — one admissible
interleaving of the concurrent pair — makes both succeed and leaves the
stock at -2. -/
theorem two_serialized_deductions_both_succeed_stock_negative :
    (postInventoryLog dbAdjust 1 (-6) "SALE" none none none).1 = .ok ∧
    (postInventoryLog (postInventoryLog dbAdjust 1 (-6) "SALE" none none none).2
        1 (-6) "SALE" none none none).1 = .ok ∧
    ((postInventoryLog (postInventoryLog dbAdjust 1 (-6) "SALE" none none none).2
        1 (-6) "SALE" none none none).2.products 1).map Product.stock = some (-2) := by
  decide

/-- C4 counterexample.  The service auto-deduction endpoint succeeds,
writes product 1's stock (5 → 3), and inserts no `InventoryLogEntry`;
the direct product update endpoint likewise rewrites the stock (10 →
25) with no ledger entry.  So it is false that no stock-mutating path
writes stock without a matching ledger entry. -/
theorem applyService_and_putProduct_mutate_stock_without_ledger_entry :
    ((applyService dbService 2 1).1 = .ok ∧
      ((applyService dbService 2 1).2.1.products 1).map Product.stock = some 3 ∧
      (applyService dbService 2 1).2.1.inventory_logs = []) ∧
    ((putProduct dbAdjust 1 25 (some 3) 5).1 = .ok ∧
      ((putProduct dbAdjust 1 25 (some 3) 5).2.products 1).map Product.stock = some 25 ∧
      (putProduct dbAdjust 1 25 (some 3) 5).2.inventory_logs = []) := by
  decide

/-- Every inventory log present after the receive-purchase item loop is
either an entry that was already present or satisfies the snapshot
invariant. -/
theorem receiveItems_mem_inventory_logs (purchaseId : Nat) (rb : Option Nat) :
    ∀ (items : List ReceiveItem) (db : Db) (e : InventoryLog),
      e ∈ (receiveItems purchaseId rb items db).2.inventory_logs →
      e ∈ db.inventory_logs ∨ ledgerInvariant e := by
  intro items
  induction items with
  | nil =>
    intro db e h
    exact .inl h
  | cons item rest ih =>
    intro db e h
    rw [receiveItems] at h
    cases hp : db.products item.product_id with
    | none =>
      rw [hp] at h
      exact .inl h
    | some product =>
      rw [hp] at h
      rcases ih _ e h with h' | h'
      · rw [setProduct_inventory_logs] at h'
        rcases List.mem_append.mp h' with h'' | h''
        · exact .inl h''
        · right
          rcases List.mem_singleton.mp h'' with rfl
          exact ⟨rfl, rfl⟩
      · exact .inr h'

/-- C3.  Every `InventoryLogEntry` created by either writing path — the
manual adjustment handler or the purchase-receipt handler — records a
snapshot with `new_stock = previous_stock + change` and
`total_cost_impact = change * unit_cost`. -/
theorem ledger_entries_satisfy_snapshot_invariant (db : Db) (pid : Nat) (change : Int)
    (reason : String) (rt : Option String) (ri : Option Nat) (cb : Option Nat)
    (purchaseId : Nat) (items : List ReceiveItem) (rb : Option Nat) (e : InventoryLog) :
    (e ∈ (postInventoryLog db pid change reason rt ri cb).2.inventory_logs →
      e ∈ db.inventory_logs ∨ ledgerInvariant e) ∧
    (e ∈ (receivePurchase db purchaseId items rb).2.inventory_logs →
      e ∈ db.inventory_logs ∨ ledgerInvariant e) := by
  constructor
  · intro h
    rw [postInventoryLog] at h
    cases hp : db.products pid with
    | none =>
      rw [hp] at h
      exact .inl h
    | some product =>
      rw [hp] at h
      simp only [updateProductStock_inventory_logs] at h
      rcases List.mem_append.mp h with h' | h'
      · exact .inl h'
      · right
        rcases List.mem_singleton.mp h' with rfl
        exact ⟨rfl, rfl⟩
  · intro h
    rw [receivePurchase] at h
    cases he : items.isEmpty with
    | true =>
      rw [he] at h
      exact .inl h
    | false =>
      rw [he] at h
      cases hp : db.purchases purchaseId with
      | none =>
        rw [hp] at h
        exact .inl h
      | some purchase =>
        rw [hp] at h
        simpa using receiveItems_mem_inventory_logs purchaseId rb items _ e h

/-- Witness for C3: the ledger row created by the concrete manual
adjustment of -12 on `dbAdjust` satisfies the snapshot invariant. -/
theorem ledger_entries_satisfy_snapshot_invariant_witness :
    (⟨1, -12, "MANUAL", none, none, none, 10, -2, 3, -36, some 3, some (-36)⟩ : InventoryLog)
      ∈ (postInventoryLog dbAdjust 1 (-12) "MANUAL" none none none).2.inventory_logs ∧
    ((⟨1, -12, "MANUAL", none, none, none, 10, -2, 3, -36, some 3, some (-36)⟩ : InventoryLog)
        ∈ dbAdjust.inventory_logs ∨
      ledgerInvariant ⟨1, -12, "MANUAL", none, none, none, 10, -2, 3, -36, some 3, some (-36)⟩) :=
  ⟨by decide,
   (ledger_entries_satisfy_snapshot_invariant dbAdjust 1 (-12) "MANUAL" none none none
      0 [] none ⟨1, -12, "MANUAL", none, none, none, 10, -2, 3, -36, some 3, some (-36)⟩).1
     (by decide)⟩

/-- The service auto-deduction loop never touches the inventory log. -/
theorem applyLoop_inventory_logs :
    ∀ (rows : List (ServiceProduct × Option Int)) (db : Db),
      (applyLoop rows db).2.1.inventory_logs = db.inventory_logs := by
  intro rows
  induction rows with
  | nil => intro db; rfl
  | cons row rest ih =>
    intro db
    obtain ⟨sp, snap⟩ := row
    cases snap with
    | none => rfl
    | some st =>
      rw [applyLoop]
      by_cases hneg : st - sp.quantity < 0
      · simp [hneg]
      · simp [hneg, ih]

/-- Behaviour of the service auto-deduction loop: every stock write it
issues is non-negative, the final state is exactly the accumulated
writes applied to the initial state, and an `InsufficientStock`
response identifies a first offending row: every earlier row had a
sufficient snapshot and was deducted, and neither the offending row
nor any later row was written. -/
theorem applyLoop_spec :
    ∀ (rows : List (ServiceProduct × Option Int)) (db : Db),
      (∀ w ∈ (applyLoop rows db).2.2, 0 ≤ w.new_stock) ∧
      (applyLoop rows db).2.1 = applyWrites db (applyLoop rows db).2.2 ∧
      (∀ p, (applyLoop rows db).1 = .error (.insufficientStock p) →
        ∃ pre x post, rows = pre ++ x :: post ∧ x.1.product_id = p ∧
          (∃ st, x.2 = some st ∧ st - x.1.quantity < 0) ∧
          (∀ r ∈ pre, ∃ st, r.2 = some st ∧ 0 ≤ st - r.1.quantity) ∧
          (applyLoop rows db).2.2
            = pre.map fun r => StockWrite.mk r.1.product_id (r.2.getD 0 - r.1.quantity)) := by
  intro rows
  induction rows with
  | nil =>
    intro db
    refine ⟨by simp [applyLoop], rfl, ?_⟩
    intro p hp
    simp [applyLoop] at hp
  | cons row rest ih =>
    intro db
    obtain ⟨sp, snap⟩ := row
    cases snap with
    | none =>
      refine ⟨by simp [applyLoop], rfl, ?_⟩
      intro p hp
      simp [applyLoop] at hp
    | some st =>
      by_cases hneg : st - sp.quantity < 0
      · refine ⟨by simp [applyLoop, hneg], by simp [applyLoop, hneg, applyWrites], ?_⟩
        intro p hp
        rw [applyLoop] at hp
        simp only [hneg, if_pos] at hp
        refine ⟨[], (sp, some st), rest, by simp, ?_, ⟨st, rfl, hneg⟩, by simp,
          by simp [applyLoop, hneg]⟩
        cases hp
        rfl
      · obtain ⟨ih1, ih2, ih3⟩ := ih (setStock db sp.product_id (st - sp.quantity))
        have hred : applyLoop ((sp, some st) :: rest) db
            = ((applyLoop rest (setStock db sp.product_id (st - sp.quantity))).1,
               (applyLoop rest (setStock db sp.product_id (st - sp.quantity))).2.1,
               StockWrite.mk sp.product_id (st - sp.quantity)
                 :: (applyLoop rest (setStock db sp.product_id (st - sp.quantity))).2.2) := by
          rw [applyLoop]
          simp [hneg]
        rw [hred]
        refine ⟨?_, ?_, ?_⟩
        · intro w hw
          rcases List.mem_cons.mp hw with rfl | hw
          · exact le_of_not_lt hneg
          · exact ih1 w hw
        · exact ih2
        · intro p hp
          obtain ⟨pre, x, post, hrows, hpid, hfail, hpre, hws⟩ := ih3 p hp
          refine ⟨(sp, some st) :: pre, x, post, ?_, hpid, hfail, ?_, ?_⟩
          · rw [hrows, List.cons_append]
          · intro r hr
            rcases List.mem_cons.mp hr with rfl | hr
            · exact ⟨st, rfl, le_of_not_lt hneg⟩
            · exact hpre r hr
          · rw [List.map_cons, hws]
            rfl

/-- C10.  For the service auto-deduction endpoint: a product's stock is
only written when the deducted result is non-negative; the response
state is exactly the issued writes applied in order (so deductions
already made are kept — there is no rollback); and when the request
fails with `InsufficientStock`, the offending linked row and all later
rows were not deducted while every earlier row was. -/
theorem applyService_deduction_spec (db : Db) (s v : Nat) :
    (∀ w ∈ (applyService db s v).2.2, 0 ≤ w.new_stock) ∧
    (applyService db s v).2.1 = applyWrites db (applyService db s v).2.2 ∧
    (∀ p, (applyService db s v).1 = .error (.insufficientStock p) →
      ∃ pre x post, linkedRows db s v = pre ++ x :: post ∧ x.1.product_id = p ∧
        (∃ st, x.2 = some st ∧ st - x.1.quantity < 0) ∧
        (∀ r ∈ pre, ∃ st, r.2 = some st ∧ 0 ≤ st - r.1.quantity) ∧
        (applyService db s v).2.2
          = pre.map fun r => StockWrite.mk r.1.product_id (r.2.getD 0 - r.1.quantity)) := by
  rw [applyService]
  by_cases hrows : (linkedRows db s v).isEmpty
  · refine ⟨by simp [hrows], by simp [hrows, applyWrites], ?_⟩
    intro p hp
    simp [hrows] at hp
  · simp only [hrows, Bool.false_eq_true, if_neg, ite_false]
    exact applyLoop_spec (linkedRows db s v) db

/-- Witness for C10: applying service 1 / variant 1 on `dbService`
deducts product 1 (5 → 3) and then fails with insufficient stock on
product 2 (snapshot 1 < quantity 4); the issued writes are exactly the
one non-negative deduction for product 1. -/
theorem applyService_deduction_spec_witness :
    0 ≤ (StockWrite.mk 1 3).new_stock ∧
    (∃ pre x post, linkedRows dbService 1 1 = pre ++ x :: post ∧ x.1.product_id = 2 ∧
      (∃ st, x.2 = some st ∧ st - x.1.quantity < 0) ∧
      (∀ r ∈ pre, ∃ st, r.2 = some st ∧ 0 ≤ st - r.1.quantity) ∧
      (applyService dbService 1 1).2.2
        = pre.map fun r => StockWrite.mk r.1.product_id (r.2.getD 0 - r.1.quantity)) :=
  ⟨(applyService_deduction_spec dbService 1 1).1 (StockWrite.mk 1 3) (by decide),
   (applyService_deduction_spec dbService 1 1).2.2 2 (by decide)⟩

/-- C4 amended.  The two ledger-writing paths behave as claimed: a
successful manual adjustment appends exactly one `InventoryLogEntry`
whose `change` equals the stock difference it causes and whose
`total_cost_impact` is `change * unit_cost` (the appended row is given
explicitly, so `new_stock - previous_stock = change` and the cost
equation can be read off it).  But the claim's universal clause fails:
the service auto-deduction endpoint and the direct product update
endpoint write stock and never append a ledger entry. -/
theorem stock_mutation_ledger_coverage (db : Db) (pid : Nat) (change : Int) (reason : String)
    (rt : Option String) (ri : Option Nat) (cb : Option Nat) (s v : Nat)
    (stock : Int) (cost : Option Int) (rl : Int) :
    (∀ p, db.products pid = some p →
      (postInventoryLog db pid change reason rt ri cb).1 = .ok ∧
      (postInventoryLog db pid change reason rt ri cb).2.inventory_logs
        = db.inventory_logs ++ [⟨pid, change, reason, rt, ri, cb, p.stock, p.stock + change,
            p.cost.getD 0, change * p.cost.getD 0, some (p.cost.getD 0),
            some (change * p.cost.getD 0)⟩] ∧
      ((postInventoryLog db pid change reason rt ri cb).2.products pid).map Product.stock
        = some (p.stock + change)) ∧
    (applyService db s v).2.1.inventory_logs = db.inventory_logs ∧
    (putProduct db pid stock cost rl).2.inventory_logs = db.inventory_logs := by
  refine ⟨?_, ?_, ?_⟩
  · intro p hp
    refine ⟨?_, ?_, ?_⟩
    · rw [postInventoryLog, hp]
    · rw [postInventoryLog, hp]
      simp
    · rw [postInventoryLog, hp]
      simp [updateProductStock, hp, setProduct]
  · rw [applyService]
    by_cases hrows : (linkedRows db s v).isEmpty
    · simp [hrows]
    · simp [hrows, applyLoop_inventory_logs]
  · rw [putProduct]
    cases db.products pid <;> rfl

/-- Witness for C4's amended theorem: the manual adjustment of +2 on
`dbAdjust` (product 1: stock 10, cost 3) appends exactly the expected
ledger row and moves the stock to 12. -/
theorem stock_mutation_ledger_coverage_witness :
    (postInventoryLog dbAdjust 1 2 "ADJ" none none none).1 = .ok ∧
    (postInventoryLog dbAdjust 1 2 "ADJ" none none none).2.inventory_logs
      = dbAdjust.inventory_logs ++ [⟨1, 2, "ADJ", none, none, none, 10, 10 + 2, 3, 2 * 3,
          some 3, some (2 * 3)⟩] ∧
    ((postInventoryLog dbAdjust 1 2 "ADJ" none none none).2.products 1).map Product.stock
      = some (10 + 2) :=
  (stock_mutation_ledger_coverage dbAdjust 1 2 "ADJ" none none none 0 0 0 none 0).1
    ⟨10, some 3, 5⟩ (by decide)

theorem stockSum_cons (it : ReceiveItem) (rest : List ReceiveItem) (pid : Nat) :
    stockSum (it :: rest) pid
      = (if it.product_id = pid then it.quantity else 0) + stockSum rest pid := by
  by_cases h : it.product_id = pid <;> simp [stockSum, List.filter_cons, h]

theorem receiveItems_cons_eq (purchaseId : Nat) (rb : Option Nat) (item : ReceiveItem)
    (rest : List ReceiveItem) (db : Db) (p : Product)
    (hp : db.products item.product_id = some p) :
    receiveItems purchaseId rb (item :: rest) db
      = receiveItems purchaseId rb rest (receiveStep purchaseId rb item p db) := by
  rw [receiveItems, hp]
  rfl

theorem receiveStep_products (purchaseId : Nat) (rb : Option Nat) (item : ReceiveItem)
    (p : Product) (db : Db) (j : Nat) :
    (receiveStep purchaseId rb item p db).products j
      = if j = item.product_id then some { p with stock := p.stock + item.quantity }
        else db.products j := rfl

theorem costOf_receiveStep (purchaseId : Nat) (rb : Option Nat) (item : ReceiveItem)
    (p : Product) (db : Db) (hp : db.products item.product_id = some p) (j : Nat) :
    costOf (receiveStep purchaseId rb item p db) j = costOf db j := by
  unfold costOf
  rw [receiveStep_products]
  by_cases hj : j = item.product_id
  · subst hj
    rw [if_pos rfl, hp]
  · rw [if_neg hj]

theorem isSome_receiveStep (purchaseId : Nat) (rb : Option Nat) (item : ReceiveItem)
    (p : Product) (db : Db) (j : Nat) (h : (db.products j).isSome = true) :
    ((receiveStep purchaseId rb item p db).products j).isSome = true := by
  rw [receiveStep_products]
  by_cases hj : j = item.product_id
  · rw [if_pos hj]
    rfl
  · rw [if_neg hj]
    exact h

/-- When every item's product exists, the receive-purchase loop
succeeds, leaves the purchases table alone, appends exactly one ledger
row per item with the claimed reason/reference/change/unit-cost
fields, and raises every product's stock by the total quantity the
items carry for it. -/
theorem receiveItems_success_spec (purchaseId : Nat) (rb : Option Nat) :
    ∀ (items : List ReceiveItem) (db : Db),
      (∀ it ∈ items, (db.products it.product_id).isSome = true) →
      (receiveItems purchaseId rb items db).1 = .ok ∧
      (receiveItems purchaseId rb items db).2.purchases = db.purchases ∧
      (∃ L, (receiveItems purchaseId rb items db).2.inventory_logs
          = db.inventory_logs ++ L ∧
        List.Forall₂ (fun (it : ReceiveItem) (e : InventoryLog) =>
          e.reason = "PURCHASE_RECEIVED" ∧ e.ref_table = some "purchases" ∧
          e.ref_id = some purchaseId ∧ e.created_by = rb ∧ e.change = it.quantity ∧
          e.unit_cost = it.cost.getD (costOf db it.product_id)) items L) ∧
      (∀ pid, (receiveItems purchaseId rb items db).2.products pid
          = (db.products pid).map fun q => { q with stock := q.stock + stockSum items pid }) := by
  intro items
  induction items with
  | nil =>
    intro db _
    refine ⟨rfl, rfl, ⟨[], by simp [receiveItems], List.Forall₂.nil⟩, ?_⟩
    intro pid
    rw [receiveItems]
    cases h : db.products pid <;> simp [h, stockSum]
  | cons item rest ih =>
    intro db hall
    obtain ⟨p, hp⟩ := Option.isSome_iff_exists.mp (hall item (List.mem_cons_self item rest))
    have hall2 : ∀ it ∈ rest,
        ((receiveStep purchaseId rb item p db).products it.product_id).isSome = true :=
      fun it hit =>
        isSome_receiveStep purchaseId rb item p db it.product_id
          (hall it (List.mem_cons_of_mem item hit))
    obtain ⟨h1, h2, ⟨L, hL, hF⟩, h4⟩ := ih (receiveStep purchaseId rb item p db) hall2
    rw [receiveItems_cons_eq purchaseId rb item rest db p hp]
    refine ⟨h1, by rw [h2]; rfl, ⟨receiptLog purchaseId rb item p :: L, ?_, ?_⟩, ?_⟩
    · rw [hL]
      show (db.inventory_logs ++ [receiptLog purchaseId rb item p]) ++ L = _
      rw [List.append_assoc]
      rfl
    · refine List.Forall₂.cons ⟨rfl, rfl, rfl, rfl, rfl, ?_⟩ ?_
      · show item.cost.getD (p.cost.getD 0) = item.cost.getD (costOf db item.product_id)
        unfold costOf
        rw [hp]
      · refine List.Forall₂.imp ?_ hF
        intro a b hab
        obtain ⟨e1, e2, e3, e4, e5, e6⟩ := hab
        exact ⟨e1, e2, e3, e4, e5, by
          rw [e6, costOf_receiveStep purchaseId rb item p db hp]⟩
    · intro pid
      rw [h4 pid, receiveStep_products]
      by_cases hj : pid = item.product_id
      · subst hj
        rw [if_pos rfl, hp]
        simp [stockSum_cons, add_assoc]
      · rw [if_neg hj, stockSum_cons, if_neg (fun h => hj h.symm), zero_add]

/-- C5.  `receivePurchase` rejects an empty items list with the
`EmptyItems` validation error and no write; otherwise (purchase
present, all item products present) it succeeds, sets the purchase's
status to "received", appends per item exactly one `InventoryLogEntry`
with `reason = PURCHASE_RECEIVED`, `ref_table = purchases`,
`ref_id = purchase_id`, `change = quantity` and
`unit_cost = item.cost ?? product.cost ?? 0`, and increases each
product's stock by the total quantity the items carry for it. -/
theorem receivePurchase_success_spec (db : Db) (purchaseId : Nat) (items : List ReceiveItem)
    (rb : Option Nat) (purchase : Purchase)
    (hp : db.purchases purchaseId = some purchase)
    (hitems : ∀ it ∈ items, (db.products it.product_id).isSome = true) :
    (items = [] → receivePurchase db purchaseId items rb = (.error .emptyItems, db)) ∧
    (items ≠ [] →
      (receivePurchase db purchaseId items rb).1 = .ok ∧
      ((receivePurchase db purchaseId items rb).2.purchases purchaseId).map Purchase.status
        = some "received" ∧
      (∃ L, (receivePurchase db purchaseId items rb).2.inventory_logs
          = db.inventory_logs ++ L ∧
        List.Forall₂ (fun (it : ReceiveItem) (e : InventoryLog) =>
          e.reason = "PURCHASE_RECEIVED" ∧ e.ref_table = some "purchases" ∧
          e.ref_id = some purchaseId ∧ e.created_by = rb ∧ e.change = it.quantity ∧
          e.unit_cost = it.cost.getD (costOf db it.product_id)) items L) ∧
      (∀ pid, (receivePurchase db purchaseId items rb).2.products pid
          = (db.products pid).map fun q => { q with stock := q.stock + stockSum items pid })) := by
  constructor
  · intro h
    subst h
    rfl
  · intro hne
    obtain ⟨it0, its, rfl⟩ := List.exists_cons_of_ne_nil hne
    have hred : receivePurchase db purchaseId (it0 :: its) rb
        = receiveItems purchaseId rb (it0 :: its)
            (setPurchase db purchaseId { purchase with status := "received" }) := by
      rw [receivePurchase, hp]
      rfl
    rw [hred]
    obtain ⟨h1, h2, ⟨L, hL, hF⟩, h4⟩ :=
      receiveItems_success_spec purchaseId rb (it0 :: its)
        (setPurchase db purchaseId { purchase with status := "received" })
        (fun it hit => hitems it hit)
    refine ⟨h1, ?_, ⟨L, hL, hF⟩, h4⟩
    rw [h2]
    simp [setPurchase]

/-- Witness for C5: receiving purchase 7 of `dbReceive` with one item
(5 units of product 1, no item cost) goes through the success branch:
status "received", one `PURCHASE_RECEIVED` ledger row with unit cost
falling back to the product's cost 2, and stock 10 → 15. -/
theorem receivePurchase_success_spec_witness :
    dbReceive.purchases 7 = some ⟨7, some 1, none, 1, "pending"⟩ ∧
    (∀ it ∈ ([⟨1, 5, none⟩] : List ReceiveItem),
      (dbReceive.products it.product_id).isSome = true) ∧
    ((([⟨1, 5, none⟩] : List ReceiveItem) = [] →
        receivePurchase dbReceive 7 [⟨1, 5, none⟩] (some 1) = (.error .emptyItems, dbReceive)) ∧
      (([⟨1, 5, none⟩] : List ReceiveItem) ≠ [] →
        (receivePurchase dbReceive 7 [⟨1, 5, none⟩] (some 1)).1 = .ok ∧
        ((receivePurchase dbReceive 7 [⟨1, 5, none⟩] (some 1)).2.purchases 7).map
          Purchase.status = some "received" ∧
        (∃ L, (receivePurchase dbReceive 7 [⟨1, 5, none⟩] (some 1)).2.inventory_logs
            = dbReceive.inventory_logs ++ L ∧
          List.Forall₂ (fun (it : ReceiveItem) (e : InventoryLog) =>
            e.reason = "PURCHASE_RECEIVED" ∧ e.ref_table = some "purchases" ∧
            e.ref_id = some 7 ∧ e.created_by = some 1 ∧ e.change = it.quantity ∧
            e.unit_cost = it.cost.getD (costOf dbReceive it.product_id))
            ([⟨1, 5, none⟩] : List ReceiveItem) L) ∧
        (∀ pid, (receivePurchase dbReceive 7 [⟨1, 5, none⟩] (some 1)).2.products pid
            = (dbReceive.products pid).map fun q =>
                { q with stock := q.stock + stockSum [⟨1, 5, none⟩] pid }))) :=
  ⟨by decide, by decide,
   receivePurchase_success_spec dbReceive 7 [⟨1, 5, none⟩] (some 1)
     ⟨7, some 1, none, 1, "pending"⟩ (by decide) (by decide)⟩

/-- C7.  `decideRequisition` fails with `InvalidAction` (400) when the
action is neither "approve" nor "reject", and — for a recognised action
— with `InvalidState` (400 "Requisition already processed.") when the
requisition's status is not "pending"; both failures return the store
unchanged.  A recognised action on a pending requisition succeeds and
sets the status to "approved" or "rejected" accordingly. -/
theorem decideRequisition_state_machine (db : Db) (id : Nat) (action : String) :
    (¬(action = "approve" ∨ action = "reject") →
      decideRequisition db id action = (.error .invalidAction, db)) ∧
    (∀ r, (action = "approve" ∨ action = "reject") →
      db.requisitions id = some r → r.status ≠ "pending" →
      decideRequisition db id action
        = (.error (.invalidState "Requisition already processed."), db)) ∧
    (∀ r, (action = "approve" ∨ action = "reject") →
      db.requisitions id = some r → r.status = "pending" →
      (decideRequisition db id action).1 = .ok ∧
      ((decideRequisition db id action).2.requisitions id).map Requisition.status
        = some (if action = "approve" then "approved" else "rejected")) := by
  refine ⟨?_, ?_, ?_⟩
  · intro h
    simp [decideRequisition, h]
  · intro r hv hr hs
    simp [decideRequisition, hv, hr, hs]
  · intro r hv hr hs
    simp [decideRequisition, hv, hr, hs, setRequisition]

/-- Witness for C7: requisition 3 is pending and requisition 5 is
fulfilled in `dbReq`; "cancel" is rejected as an invalid action, a
decision on requisition 5 is rejected as invalid state, and approving
requisition 3 sets its status to "approved". -/
theorem decideRequisition_state_machine_witness :
    decideRequisition dbReq 3 "cancel" = (.error .invalidAction, dbReq) ∧
    decideRequisition dbReq 5 "approve"
      = (.error (.invalidState "Requisition already processed."), dbReq) ∧
    ((decideRequisition dbReq 3 "approve").1 = .ok ∧
      ((decideRequisition dbReq 3 "approve").2.requisitions 3).map Requisition.status
        = some (if "approve" = "approve" then "approved" else "rejected")) :=
  ⟨(decideRequisition_state_machine dbReq 3 "cancel").1 (by decide),
   (decideRequisition_state_machine dbReq 5 "approve").2.1 ⟨5, 1, "restock", "fulfilled"⟩
     (by decide) (by decide) (by decide),
   (decideRequisition_state_machine dbReq 3 "approve").2.2 ⟨3, 1, "restock", "pending"⟩
     (by decide) (by decide) (by decide)⟩

/-- C6.  `createPurchaseFromRequisition` fails with `NotFound` (404) if
the requisition is absent and with `InvalidState` (400) if its status
is not "approved", both without touching the store.  On success (all
item products existing, so the item insert passes) it creates a
purchase with status "pending" holding exactly the supplied items —
no comparison with the requisition's own items appears anywhere — and
then marks the requisition "fulfilled". -/
theorem createPurchaseFromRequisition_spec (db : Db) (rid : Nat) (sid : Option Nat)
    (items : List PurchaseItemInput) (notes : Option String) (cb : Nat) :
    (db.requisitions rid = none → createPurchaseFromRequisition db rid sid items notes cb
      = (.error (.notFound "Requisition not found"), db)) ∧
    (∀ r, db.requisitions rid = some r → r.status ≠ "approved" →
      createPurchaseFromRequisition db rid sid items notes cb
        = (.error (.invalidState "Requisition not approved yet"), db)) ∧
    (∀ r, db.requisitions rid = some r → r.status = "approved" →
      (∀ i ∈ items, (db.products i.product_id).isSome = true) →
      (createPurchaseFromRequisition db rid sid items notes cb).1 = .ok ∧
      ((createPurchaseFromRequisition db rid sid items notes cb).2.purchases
        db.purchaseSeq).map Purchase.status = some "pending" ∧
      (createPurchaseFromRequisition db rid sid items notes cb).2.purchase_items
        = db.purchase_items ++ items.map (fun i =>
            PurchaseItem.mk db.purchaseSeq i.product_id i.quantity (i.cost.getD 0)) ∧
      ((createPurchaseFromRequisition db rid sid items notes cb).2.requisitions rid).map
        Requisition.status = some "fulfilled") := by
  refine ⟨?_, ?_, ?_⟩
  · intro h
    simp [createPurchaseFromRequisition, h]
  · intro r hr hs
    simp [createPurchaseFromRequisition, hr, hs]
  · intro r hr hs hitems
    have hall : (items.all fun i => (db.products i.product_id).isSome) = true :=
      List.all_eq_true.mpr hitems
    simp [createPurchaseFromRequisition, hr, hs, setPurchase, setRequisitionStatus,
      setRequisition, hall]

/-- Witness for C6: in `dbReq`, requisition 9 is absent, requisition 3
is pending (not approved), and requisition 4 is approved with product 1
existing, so the conversion succeeds. -/
theorem createPurchaseFromRequisition_spec_witness :
    createPurchaseFromRequisition dbReq 9 (some 2) [] none 1
      = (.error (.notFound "Requisition not found"), dbReq) ∧
    createPurchaseFromRequisition dbReq 3 (some 2) [] none 1
      = (.error (.invalidState "Requisition not approved yet"), dbReq) ∧
    ((createPurchaseFromRequisition dbReq 4 (some 2) [⟨1, 5, some 9⟩] none 1).1 = .ok ∧
      ((createPurchaseFromRequisition dbReq 4 (some 2) [⟨1, 5, some 9⟩] none 1).2.purchases
        dbReq.purchaseSeq).map Purchase.status = some "pending" ∧
      (createPurchaseFromRequisition dbReq 4 (some 2) [⟨1, 5, some 9⟩] none 1).2.purchase_items
        = dbReq.purchase_items ++ ([⟨1, 5, some 9⟩] : List PurchaseItemInput).map (fun i =>
            PurchaseItem.mk dbReq.purchaseSeq i.product_id i.quantity (i.cost.getD 0)) ∧
      ((createPurchaseFromRequisition dbReq 4 (some 2) [⟨1, 5, some 9⟩] none 1).2.requisitions
        4).map Requisition.status = some "fulfilled") :=
  ⟨(createPurchaseFromRequisition_spec dbReq 9 (some 2) [] none 1).1 (by decide),
   (createPurchaseFromRequisition_spec dbReq 3 (some 2) [] none 1).2.1
     ⟨3, 1, "restock", "pending"⟩ (by decide) (by decide),
   (createPurchaseFromRequisition_spec dbReq 4 (some 2) [⟨1, 5, some 9⟩] none 1).2.2
     ⟨4, 1, "restock", "approved"⟩ (by decide) (by decide) (by decide)⟩

end Carwash
